import Mathlib

/-!
Shallow embedding of the point.rs crate (src/lib.rs): two plain point types,
`SimplePoint` (i16 position, u8 color channels, blank flag) and
`PipelinePoint` (f32 fields, blank flag), their factory constructors, the
widening/narrowing conversions between them, and the coordinate-only text
rendering.

Modelling choices:
* Rust `i16` and `u8` fields are embedded as `Int`; range constraints
  (−32768 ≤ x ≤ 32767, 0 ≤ r ≤ 255) appear as explicit hypotheses where a
  theorem needs them.  No arithmetic in the crate can overflow: the
  constructors only store their arguments.
* Rust `f32` is embedded as `F32`: an exact rational when finite, plus NaN
  and the two infinities.  The crate performs no floating-point arithmetic —
  the only f32 values it produces are integer-converted values and the
  literals 0.0 and 255.0, all exactly representable — so no rounding of
  arithmetic ever occurs and the exact-rational model is faithful.  The
  model's finite values are a superset of the f32 values (it also contains
  rationals no f32 bit pattern denotes); universally quantified theorems
  over `F32` therefore cover every real f32 input, and every concrete value
  used in a counterexample or witness below is exactly representable in f32.
* Rust `as` casts: integer → f32 rounds to nearest, which is exact for every
  |n| ≤ 2^24 and hence for the whole i16 and u8 domains, so `intToF32` is
  the exact injection.  f32 → integer truncates toward zero and saturates at
  the target type's bounds, and NaN casts to 0 (Rust reference semantics for
  float-to-int `as`); `f32ToIntSat` embeds exactly that.
-/

namespace PointRs

/-- Model of Rust `f32` for this crate: an exact rational when finite, plus
NaN and the two infinities (see the module docstring for why this is
faithful here). -/
inductive F32 where
  | finite (val : ℚ) : F32
  | nan : F32
  | inf : F32
  | neginf : F32
deriving DecidableEq

/-- Truncation of a rational toward zero, the rounding mode of Rust's
float-to-integer `as` cast: floor for nonnegative values, ceiling for
negative ones. -/
def ratTrunc (q : ℚ) : Int :=
  if 0 ≤ q then ⌊q⌋ else ⌈q⌉

/-- Rust `as` cast from f32 to an integer type with representable range
`[lo, hi]`: truncate toward zero, saturate at the bounds, NaN casts to 0,
the infinities cast to the corresponding bound. -/
def f32ToIntSat (lo hi : Int) : F32 → Int
  | .finite q =>
      let t := ratTrunc q
      if t < lo then lo else if hi < t then hi else t
  | .nan => 0
  | .inf => hi
  | .neginf => lo

/-- Rust `x as i16` for an f32 value `x`. -/
def f32ToI16 (v : F32) : Int := f32ToIntSat (-32768) 32767 v

/-- Rust `c as u8` for an f32 value `c`. -/
def f32ToU8 (v : F32) : Int := f32ToIntSat 0 255 v

/-- Rust `n as f32` for an i16 or u8 value `n`: exact, since every integer
of magnitude at most 2^24 is representable in f32. -/
def intToF32 (n : Int) : F32 := .finite (n : ℚ)

/-- Core point type (`SimplePoint` in src/lib.rs): position `x, y` (i16),
color `r, g, b` (u8), and the blanking flag. -/
structure SimplePoint where
  x : Int
  y : Int
  r : Int
  g : Int
  b : Int
  is_blank : Bool
deriving DecidableEq

/-- Working point type (`PipelinePoint` in src/lib.rs): position and color
as f32, and the blanking flag. -/
structure PipelinePoint where
  x : F32
  y : F32
  r : F32
  g : F32
  b : F32
  is_blank : Bool
deriving DecidableEq

/-- `SimplePoint::MIN_COLOR`. -/
def SimplePoint.MIN_COLOR : Int := 0

/-- `SimplePoint::MAX_COLOR`. -/
def SimplePoint.MAX_COLOR : Int := 255

/-- `SimplePoint::xy_rgb`. -/
def SimplePoint.xy_rgb (x y r g b : Int) : SimplePoint :=
  { x := x, y := y, r := r, g := g, b := b, is_blank := false }

/-- `SimplePoint::xy_blank`. -/
def SimplePoint.xy_blank (x y : Int) : SimplePoint :=
  { x := x, y := y, r := 0, g := 0, b := 0, is_blank := true }

/-- `SimplePoint::into_pipeline_pt`. -/
def SimplePoint.into_pipeline_pt (p : SimplePoint) : PipelinePoint :=
  { x := intToF32 p.x, y := intToF32 p.y, r := intToF32 p.r,
    g := intToF32 p.g, b := intToF32 p.b, is_blank := p.is_blank }

/-- `SimplePoint::xy_luma`. -/
def SimplePoint.xy_luma (x y luminance : Int) : SimplePoint :=
  { x := x, y := y, r := luminance, g := luminance, b := luminance,
    is_blank := false }

/-- `SimplePoint::xy_red`. -/
def SimplePoint.xy_red (x y red : Int) : SimplePoint :=
  { x := x, y := y, r := red, g := 0, b := 0, is_blank := false }

/-- `SimplePoint::xy_green`. -/
def SimplePoint.xy_green (x y green : Int) : SimplePoint :=
  { x := x, y := y, r := 0, g := green, b := 0, is_blank := false }

/-- `SimplePoint::xy_blue`. -/
def SimplePoint.xy_blue (x y blue : Int) : SimplePoint :=
  { x := x, y := y, r := 0, g := 0, b := blue, is_blank := false }

/-- `SimplePoint::xy_binary`. -/
def SimplePoint.xy_binary (x y : Int) (isOn : Bool) : SimplePoint :=
  let c := if isOn then SimplePoint.MAX_COLOR else 0
  SimplePoint.xy_rgb x y c c c

/-- `PipelinePoint::MIN_COLOR` (0.0). -/
def PipelinePoint.MIN_COLOR : F32 := .finite 0

/-- `PipelinePoint::MAX_COLOR` (255.0). -/
def PipelinePoint.MAX_COLOR : F32 := .finite 255

/-- `PipelinePoint::xy_rgb`. -/
def PipelinePoint.xy_rgb (x y r g b : F32) : PipelinePoint :=
  { x := x, y := y, r := r, g := g, b := b, is_blank := false }

/-- `PipelinePoint::xy_blank`. -/
def PipelinePoint.xy_blank (x y : F32) : PipelinePoint :=
  { x := x, y := y, r := .finite 0, g := .finite 0, b := .finite 0,
    is_blank := true }

/-- `PipelinePoint::into_simple_pt`. -/
def PipelinePoint.into_simple_pt (p : PipelinePoint) : SimplePoint :=
  { x := f32ToI16 p.x, y := f32ToI16 p.y, r := f32ToU8 p.r,
    g := f32ToU8 p.g, b := f32ToU8 p.b, is_blank := p.is_blank }

/-- `PipelinePoint::xy_luma`. -/
def PipelinePoint.xy_luma (x y luminance : F32) : PipelinePoint :=
  { x := x, y := y, r := luminance, g := luminance, b := luminance,
    is_blank := false }

/-- `PipelinePoint::xy_red`. -/
def PipelinePoint.xy_red (x y red : F32) : PipelinePoint :=
  { x := x, y := y, r := red, g := .finite 0, b := .finite 0,
    is_blank := false }

/-- `PipelinePoint::xy_green`. -/
def PipelinePoint.xy_green (x y green : F32) : PipelinePoint :=
  { x := x, y := y, r := .finite 0, g := green, b := .finite 0,
    is_blank := false }

/-- `PipelinePoint::xy_blue`. -/
def PipelinePoint.xy_blue (x y blue : F32) : PipelinePoint :=
  { x := x, y := y, r := .finite 0, g := .finite 0, b := blue,
    is_blank := false }

/-- `PipelinePoint::xy_binary`. -/
def PipelinePoint.xy_binary (x y : F32) (isOn : Bool) : PipelinePoint :=
  let c := if isOn then PipelinePoint.MAX_COLOR else .finite 0
  PipelinePoint.xy_rgb x y c c c

/-- Rust `Display` for an i16 field: decimal digits, leading minus sign for
negative values — the same rendering `toString` on `Int` produces. -/
def fmtI16 (n : Int) : String := toString n

/-- Rust `Display` for an f32 field, modelled where the crate's display
contract is exercised: a finite value with zero fractional part prints as
its integer part with no decimal point (Rust renders `10.0_f32` as `10`),
NaN prints as `NaN`, the infinities as `inf` and `-inf`.  A finite value
with a nonzero fractional part is rendered from the model components
(Rust's shortest-roundtrip decimal is not modelled; no theorem relies on
this branch). -/
def fmtF32 : F32 → String
  | .finite q =>
      if q.den = 1 then toString q.num
      else toString q.num ++ "/" ++ toString q.den
  | .nan => "NaN"
  | .inf => "inf"
  | .neginf => "-inf"

/-- `impl fmt::Display for SimplePoint`: writes `(x, y)`. -/
def SimplePoint.display (p : SimplePoint) : String :=
  "(" ++ fmtI16 p.x ++ ", " ++ fmtI16 p.y ++ ")"

/-- `impl fmt::Display for PipelinePoint`: writes `(x, y)`. -/
def PipelinePoint.display (p : PipelinePoint) : String :=
  "(" ++ fmtF32 p.x ++ ", " ++ fmtF32 p.y ++ ")"

/-- Derived `Default` for `SimplePoint`: field-wise defaults of the Rust
field types (i16 and u8 default to 0, bool to false). -/
def SimplePoint.default : SimplePoint :=
  { x := 0, y := 0, r := 0, g := 0, b := 0, is_blank := false }

/-- Derived `Default` for `PipelinePoint`: field-wise defaults of the Rust
field types (f32 defaults to 0.0, bool to false). -/
def PipelinePoint.default : PipelinePoint :=
  { x := .finite 0, y := .finite 0, r := .finite 0, g := .finite 0,
    b := .finite 0, is_blank := false }

end PointRs

namespace PointRs

/-! Helper lemmas about truncation and the saturating cast. -/

/-- Truncation toward zero is the identity on integers. -/
theorem ratTrunc_intCast (n : Int) : ratTrunc (n : ℚ) = n := by
  unfold ratTrunc; split <;> simp

/-- The saturating cast returns the truncation when it lies in range. -/
theorem f32ToIntSat_trunc (lo hi : Int) (q : ℚ)
    (h1 : lo ≤ ratTrunc q) (h2 : ratTrunc q ≤ hi) :
    f32ToIntSat lo hi (.finite q) = ratTrunc q := by
  simp only [f32ToIntSat]
  omega

/-- The saturating cast is the identity on in-range integer values. -/
theorem f32ToIntSat_intCast (lo hi n : Int) (h1 : lo ≤ n) (h2 : n ≤ hi) :
    f32ToIntSat lo hi (.finite (n : ℚ)) = n := by
  simp only [f32ToIntSat, ratTrunc_intCast]
  omega

/-- The saturating cast clamps values above the upper bound to the bound. -/
theorem f32ToIntSat_of_hi_lt (lo hi : Int) (hlh : lo ≤ hi) (hhi : 0 ≤ hi)
    (q : ℚ) (hq : (hi : ℚ) < q) : f32ToIntSat lo hi (.finite q) = hi := by
  have h0 : (0:ℚ) ≤ q := le_trans (by exact_mod_cast hhi) hq.le
  have ht : hi ≤ ratTrunc q := by
    unfold ratTrunc
    rw [if_pos h0]
    exact Int.le_floor.mpr hq.le
  simp only [f32ToIntSat]
  omega

/-- The saturating cast clamps values below the lower bound to the bound. -/
theorem f32ToIntSat_of_lt_lo (lo hi : Int) (hlh : lo ≤ hi) (hlo : lo ≤ 0)
    (q : ℚ) (hq : q < (lo : ℚ)) : f32ToIntSat lo hi (.finite q) = lo := by
  have hlo' : ((lo:ℚ) ≤ 0) := by exact_mod_cast hlo
  have h0 : ¬ (0:ℚ) ≤ q := fun h => absurd (lt_of_le_of_lt h hq) hlo'.not_lt
  have ht : ratTrunc q ≤ lo := by
    unfold ratTrunc
    rw [if_neg h0]
    exact Int.ceil_le.mpr hq.le
  simp only [f32ToIntSat]
  omega

/-- The saturating cast always lands in the representable range. -/
theorem f32ToIntSat_range (lo hi : Int) (hlo : lo ≤ 0) (hhi : 0 ≤ hi)
    (v : F32) : lo ≤ f32ToIntSat lo hi v ∧ f32ToIntSat lo hi v ≤ hi := by
  cases v <;> simp only [f32ToIntSat] <;> omega

/-- `as i16` saturates above 32767. -/
theorem f32ToI16_sat_hi (v : F32) (q : ℚ) (hv : v = .finite q)
    (hq : 32767 < q) : f32ToI16 v = 32767 := by
  rw [hv]
  exact f32ToIntSat_of_hi_lt _ _ (by norm_num) (by norm_num) q (by exact_mod_cast hq)

/-- `as i16` saturates below −32768. -/
theorem f32ToI16_sat_lo (v : F32) (q : ℚ) (hv : v = .finite q)
    (hq : q < -32768) : f32ToI16 v = -32768 := by
  rw [hv]
  exact f32ToIntSat_of_lt_lo _ _ (by norm_num) (by norm_num) q (by exact_mod_cast hq)

/-- `as u8` saturates above 255. -/
theorem f32ToU8_sat_hi (v : F32) (q : ℚ) (hv : v = .finite q)
    (hq : 255 < q) : f32ToU8 v = 255 := by
  rw [hv]
  exact f32ToIntSat_of_hi_lt _ _ (by norm_num) (by norm_num) q (by exact_mod_cast hq)

/-- `as u8` saturates below 0. -/
theorem f32ToU8_sat_lo (v : F32) (q : ℚ) (hv : v = .finite q)
    (hq : q < 0) : f32ToU8 v = 0 := by
  rw [hv]
  exact f32ToIntSat_of_lt_lo _ _ (by norm_num) (by norm_num) q (by exact_mod_cast hq)

end PointRs

namespace PointRs

/-! Claim theorems. -/

/-- C1: the claim as stated is false — `into_simple_pt` does not always
produce the truncation toward zero of a field ("no clamping, no
saturation"); at the concrete input x = 40000.0 the Rust `as` cast
saturates to 32767 instead of producing the truncation 40000 or the
wrap-around −25536 of a raw two's-complement narrowing. -/
theorem c1_counterexample :
    ¬ (∀ (p : PipelinePoint) (q : ℚ), p.x = F32.finite q →
        p.into_simple_pt.x = ratTrunc q) := by
  intro h
  have h40 := h { x := .finite 40000, y := .finite 0, r := .finite 0,
                  g := .finite 0, b := .finite 0, is_blank := false }
    40000 rfl
  revert h40
  decide

/-- C1 (amended): `into_simple_pt` converts each finite floating-point field
to the corresponding integer field by truncating toward zero whenever that
truncation fits the target type's range (so 3.9 narrows to 3 and −3.9 to
−3), performs no rounding, and copies `is_blank` unchanged; a field whose
truncation falls outside the target range saturates to the nearest bound
instead of producing a raw narrowing-cast result. -/
theorem c1_truncates_toward_zero (p : PipelinePoint) (qx qy qr qg qb : ℚ)
    (hx : p.x = .finite qx) (hy : p.y = .finite qy)
    (hr : p.r = .finite qr) (hg : p.g = .finite qg) (hb : p.b = .finite qb)
    (hx1 : -32768 ≤ ratTrunc qx) (hx2 : ratTrunc qx ≤ 32767)
    (hy1 : -32768 ≤ ratTrunc qy) (hy2 : ratTrunc qy ≤ 32767)
    (hr1 : 0 ≤ ratTrunc qr) (hr2 : ratTrunc qr ≤ 255)
    (hg1 : 0 ≤ ratTrunc qg) (hg2 : ratTrunc qg ≤ 255)
    (hb1 : 0 ≤ ratTrunc qb) (hb2 : ratTrunc qb ≤ 255) :
    p.into_simple_pt =
      { x := ratTrunc qx, y := ratTrunc qy, r := ratTrunc qr,
        g := ratTrunc qg, b := ratTrunc qb, is_blank := p.is_blank } := by
  simp only [PipelinePoint.into_simple_pt, hx, hy, hr, hg, hb,
    f32ToI16, f32ToU8]
  rw [f32ToIntSat_trunc _ _ _ hx1 hx2, f32ToIntSat_trunc _ _ _ hy1 hy2,
    f32ToIntSat_trunc _ _ _ hr1 hr2, f32ToIntSat_trunc _ _ _ hg1 hg2,
    f32ToIntSat_trunc _ _ _ hb1 hb2]

/-- Witness for C1 at the spec's own examples: 3.9 truncates to 3, −3.9 to
−3, 0.5 to 0 (no rounding), 254.9 to 254, 255.0 to 255, and the blank flag
is copied. -/
theorem c1_truncates_toward_zero_witness :
    (PipelinePoint.mk (.finite (39/10)) (.finite (-39/10)) (.finite (1/2))
      (.finite (2549/10)) (.finite 255) true).into_simple_pt =
    SimplePoint.mk 3 (-3) 0 254 255 true := by
  have t1 : ratTrunc (39/10 : ℚ) = 3 := by norm_num [ratTrunc]
  have t2 : ratTrunc (-39/10 : ℚ) = -3 := by
    norm_num [ratTrunc, Int.ceil_eq_iff]
  have t3 : ratTrunc (1/2 : ℚ) = 0 := by norm_num [ratTrunc]
  have t4 : ratTrunc (2549/10 : ℚ) = 254 := by norm_num [ratTrunc]
  have t5 : ratTrunc (255 : ℚ) = 255 := by norm_num [ratTrunc]
  have h := c1_truncates_toward_zero
    (PipelinePoint.mk (.finite (39/10)) (.finite (-39/10)) (.finite (1/2))
      (.finite (2549/10)) (.finite 255) true)
    (39/10) (-39/10) (1/2) (2549/10) 255 rfl rfl rfl rfl rfl
    (by rw [t1]; try norm_num) (by rw [t1]; try norm_num)
    (by rw [t2]; try norm_num) (by rw [t2]; try norm_num)
    (by rw [t3]; try norm_num) (by rw [t3]; try norm_num)
    (by rw [t4]; try norm_num) (by rw [t4]; try norm_num)
    (by rw [t5]; try norm_num) (by rw [t5]; try norm_num)
  rw [h, t1, t2, t3, t4, t5]

/-- C2: widening a `SimplePoint` to a `PipelinePoint` and narrowing back is
the identity, field for field, for every i16 position and u8 channel value,
with `is_blank` copied unchanged in both directions. -/
theorem c2_roundtrip_identity (p : SimplePoint)
    (hx1 : -32768 ≤ p.x) (hx2 : p.x ≤ 32767)
    (hy1 : -32768 ≤ p.y) (hy2 : p.y ≤ 32767)
    (hr1 : 0 ≤ p.r) (hr2 : p.r ≤ 255)
    (hg1 : 0 ≤ p.g) (hg2 : p.g ≤ 255)
    (hb1 : 0 ≤ p.b) (hb2 : p.b ≤ 255) :
    p.into_pipeline_pt.into_simple_pt = p := by
  simp only [SimplePoint.into_pipeline_pt, PipelinePoint.into_simple_pt,
    intToF32, f32ToI16, f32ToU8]
  rw [f32ToIntSat_intCast _ _ _ hx1 hx2, f32ToIntSat_intCast _ _ _ hy1 hy2,
    f32ToIntSat_intCast _ _ _ hr1 hr2, f32ToIntSat_intCast _ _ _ hg1 hg2,
    f32ToIntSat_intCast _ _ _ hb1 hb2]

/-- Witness for C2 at the spec's example point (100, −100, 1, 200, 123). -/
theorem c2_roundtrip_identity_witness :
    (SimplePoint.xy_rgb 100 (-100) 1 200
      123).into_pipeline_pt.into_simple_pt =
    SimplePoint.xy_rgb 100 (-100) 1 200 123 :=
  c2_roundtrip_identity _ (by decide) (by decide) (by decide) (by decide)
    (by decide) (by decide) (by decide) (by decide) (by decide) (by decide)

end PointRs

namespace PointRs

/-- C3: `xy_binary` with `true` sets all three channels to the channel
maximum (255 for `SimplePoint`, 255.0 for `PipelinePoint`), with `false`
sets them to the channel minimum, and never sets the blank flag, for every
position and for both point types; the stated maxima are the concrete
constants 255 and 255.0. -/
theorem c3_xy_binary_channels (xi yi : Int) (xf yf : F32) :
    (SimplePoint.MAX_COLOR = 255 ∧ PipelinePoint.MAX_COLOR = .finite 255) ∧
    ((SimplePoint.xy_binary xi yi true).x = xi ∧
     (SimplePoint.xy_binary xi yi true).y = yi ∧
     (SimplePoint.xy_binary xi yi true).r = SimplePoint.MAX_COLOR ∧
     (SimplePoint.xy_binary xi yi true).g = SimplePoint.MAX_COLOR ∧
     (SimplePoint.xy_binary xi yi true).b = SimplePoint.MAX_COLOR ∧
     (SimplePoint.xy_binary xi yi true).is_blank = false) ∧
    ((SimplePoint.xy_binary xi yi false).x = xi ∧
     (SimplePoint.xy_binary xi yi false).y = yi ∧
     (SimplePoint.xy_binary xi yi false).r = SimplePoint.MIN_COLOR ∧
     (SimplePoint.xy_binary xi yi false).g = SimplePoint.MIN_COLOR ∧
     (SimplePoint.xy_binary xi yi false).b = SimplePoint.MIN_COLOR ∧
     (SimplePoint.xy_binary xi yi false).is_blank = false) ∧
    ((PipelinePoint.xy_binary xf yf true).x = xf ∧
     (PipelinePoint.xy_binary xf yf true).y = yf ∧
     (PipelinePoint.xy_binary xf yf true).r = PipelinePoint.MAX_COLOR ∧
     (PipelinePoint.xy_binary xf yf true).g = PipelinePoint.MAX_COLOR ∧
     (PipelinePoint.xy_binary xf yf true).b = PipelinePoint.MAX_COLOR ∧
     (PipelinePoint.xy_binary xf yf true).is_blank = false) ∧
    ((PipelinePoint.xy_binary xf yf false).x = xf ∧
     (PipelinePoint.xy_binary xf yf false).y = yf ∧
     (PipelinePoint.xy_binary xf yf false).r = PipelinePoint.MIN_COLOR ∧
     (PipelinePoint.xy_binary xf yf false).g = PipelinePoint.MIN_COLOR ∧
     (PipelinePoint.xy_binary xf yf false).b = PipelinePoint.MIN_COLOR ∧
     (PipelinePoint.xy_binary xf yf false).is_blank = false) :=
  ⟨⟨rfl, rfl⟩,
   ⟨rfl, rfl, rfl, rfl, rfl, rfl⟩, ⟨rfl, rfl, rfl, rfl, rfl, rfl⟩,
   ⟨rfl, rfl, rfl, rfl, rfl, rfl⟩, ⟨rfl, rfl, rfl, rfl, rfl, rfl⟩⟩

/-- C4: `xy_blank` yields the given position, all three channels at the
channel minimum (0 for `SimplePoint`, 0.0 for `PipelinePoint`), and
`is_blank = true`, for every position and both point types. -/
theorem c4_xy_blank_fields (xi yi : Int) (xf yf : F32) :
    SimplePoint.xy_blank xi yi =
      { x := xi, y := yi, r := 0, g := 0, b := 0, is_blank := true } ∧
    PipelinePoint.xy_blank xf yf =
      { x := xf, y := yf, r := .finite 0, g := .finite 0, b := .finite 0,
        is_blank := true } :=
  ⟨rfl, rfl⟩

/-- C5: `xy_rgb` stores its five arguments exactly and sets
`is_blank = false`, for both point types. -/
theorem c5_xy_rgb_fields (xi yi ri gi bi : Int) (xf yf rf gf bf : F32) :
    SimplePoint.xy_rgb xi yi ri gi bi =
      { x := xi, y := yi, r := ri, g := gi, b := bi, is_blank := false } ∧
    PipelinePoint.xy_rgb xf yf rf gf bf =
      { x := xf, y := yf, r := rf, g := gf, b := bf, is_blank := false } :=
  ⟨rfl, rfl⟩

/-- C6: `xy_luma` sets all three channels to the given intensity with
`is_blank = false`, for both point types; in particular
`xy_luma 10 20 255` yields r = g = b = 255 and `is_blank = false`. -/
theorem c6_xy_luma_fields (xi yi li : Int) (xf yf lf : F32) :
    SimplePoint.xy_luma xi yi li =
      { x := xi, y := yi, r := li, g := li, b := li, is_blank := false } ∧
    PipelinePoint.xy_luma xf yf lf =
      { x := xf, y := yf, r := lf, g := lf, b := lf, is_blank := false } ∧
    SimplePoint.xy_luma 10 20 255 =
      { x := 10, y := 20, r := 255, g := 255, b := 255,
        is_blank := false } :=
  ⟨rfl, rfl, rfl⟩

/-- C7: the text rendering of either point type is exactly the string
`(x, y)` built from the position fields — it depends on nothing but `x` and
`y` — and every point positioned at (10, 20) renders as exactly
`(10, 20)`, whatever its color fields and blank flag. -/
theorem c7_display_position_only :
    (∀ p : SimplePoint, p.x = 10 → p.y = 20 → p.display = "(10, 20)") ∧
    (∀ p : PipelinePoint, p.x = .finite 10 → p.y = .finite 20 →
      p.display = "(10, 20)") ∧
    (∀ p q : SimplePoint, p.x = q.x → p.y = q.y →
      p.display = q.display) ∧
    (∀ p q : PipelinePoint, p.x = q.x → p.y = q.y →
      p.display = q.display) := by
  refine ⟨?_, ?_, ?_, ?_⟩
  · intro p hx hy
    simp only [SimplePoint.display, hx, hy]
    decide
  · intro p hx hy
    simp only [PipelinePoint.display, hx, hy]
    decide
  · intro p q hx hy
    simp only [SimplePoint.display, hx, hy]
  · intro p q hx hy
    simp only [PipelinePoint.display, hx, hy]

/-- Witness for C7: two concrete points at (10, 20) with different colors
and blank flags both render as `(10, 20)`. -/
theorem c7_display_position_only_witness :
    (SimplePoint.xy_rgb 10 20 7 200 9).display = "(10, 20)" ∧
    (PipelinePoint.xy_blank (.finite 10) (.finite 20)).display =
      "(10, 20)" :=
  ⟨c7_display_position_only.1 _ rfl rfl,
   c7_display_position_only.2.1 _ rfl rfl⟩

/-- C10: the derived `Default` of each type is the non-blank all-minimum
point at the origin — the same point `xy_binary 0 0 false` builds ("off"),
and not the blanking point `xy_blank 0 0`. -/
theorem c10_default_is_off_origin :
    SimplePoint.default =
      { x := 0, y := 0, r := 0, g := 0, b := 0, is_blank := false } ∧
    PipelinePoint.default =
      { x := .finite 0, y := .finite 0, r := .finite 0, g := .finite 0,
        b := .finite 0, is_blank := false } ∧
    SimplePoint.default = SimplePoint.xy_binary 0 0 false ∧
    PipelinePoint.default =
      PipelinePoint.xy_binary (.finite 0) (.finite 0) false ∧
    SimplePoint.default ≠ SimplePoint.xy_blank 0 0 ∧
    PipelinePoint.default ≠
      PipelinePoint.xy_blank (.finite 0) (.finite 0) :=
  ⟨rfl, rfl, rfl, rfl, by decide, by decide⟩

end PointRs

namespace PointRs

/-- Concrete narrowing input for the C8 witness: x and y beyond the i16
range, r above and g below the u8 range, b equal to NaN. -/
def satDemoPt : PipelinePoint :=
  { x := .finite 40000, y := .finite (-40000), r := .finite 300,
    g := .finite (-5), b := .nan, is_blank := false }

/-- C8: narrowing is total and saturating — for every `PipelinePoint` the
narrowed fields always lie in the i16 / u8 ranges, a position field above
32767 narrows to 32767 and below −32768 to −32768, a channel field above
255 narrows to 255 and below 0 to 0, a ±infinity field narrows to the
corresponding bound, and a NaN field narrows to 0. -/
theorem c8_narrowing_total_saturating (p : PipelinePoint) :
    (-32768 ≤ p.into_simple_pt.x ∧ p.into_simple_pt.x ≤ 32767 ∧
     -32768 ≤ p.into_simple_pt.y ∧ p.into_simple_pt.y ≤ 32767 ∧
     0 ≤ p.into_simple_pt.r ∧ p.into_simple_pt.r ≤ 255 ∧
     0 ≤ p.into_simple_pt.g ∧ p.into_simple_pt.g ≤ 255 ∧
     0 ≤ p.into_simple_pt.b ∧ p.into_simple_pt.b ≤ 255) ∧
    ((∀ q : ℚ, p.x = .finite q → 32767 < q → p.into_simple_pt.x = 32767) ∧
     (∀ q : ℚ, p.x = .finite q → q < -32768 →
       p.into_simple_pt.x = -32768) ∧
     (∀ q : ℚ, p.y = .finite q → 32767 < q → p.into_simple_pt.y = 32767) ∧
     (∀ q : ℚ, p.y = .finite q → q < -32768 →
       p.into_simple_pt.y = -32768)) ∧
    ((∀ q : ℚ, p.r = .finite q → 255 < q → p.into_simple_pt.r = 255) ∧
     (∀ q : ℚ, p.r = .finite q → q < 0 → p.into_simple_pt.r = 0) ∧
     (∀ q : ℚ, p.g = .finite q → 255 < q → p.into_simple_pt.g = 255) ∧
     (∀ q : ℚ, p.g = .finite q → q < 0 → p.into_simple_pt.g = 0) ∧
     (∀ q : ℚ, p.b = .finite q → 255 < q → p.into_simple_pt.b = 255) ∧
     (∀ q : ℚ, p.b = .finite q → q < 0 → p.into_simple_pt.b = 0)) ∧
    ((p.x = .inf → p.into_simple_pt.x = 32767) ∧
     (p.x = .neginf → p.into_simple_pt.x = -32768) ∧
     (p.r = .inf → p.into_simple_pt.r = 255) ∧
     (p.r = .neginf → p.into_simple_pt.r = 0)) ∧
    ((p.x = .nan → p.into_simple_pt.x = 0) ∧
     (p.y = .nan → p.into_simple_pt.y = 0) ∧
     (p.r = .nan → p.into_simple_pt.r = 0) ∧
     (p.g = .nan → p.into_simple_pt.g = 0) ∧
     (p.b = .nan → p.into_simple_pt.b = 0)) := by
  obtain ⟨hx1, hx2⟩ :=
    f32ToIntSat_range (-32768) 32767 (by norm_num) (by norm_num) p.x
  obtain ⟨hy1, hy2⟩ :=
    f32ToIntSat_range (-32768) 32767 (by norm_num) (by norm_num) p.y
  obtain ⟨hr1, hr2⟩ := f32ToIntSat_range 0 255 (by norm_num) (by norm_num) p.r
  obtain ⟨hg1, hg2⟩ := f32ToIntSat_range 0 255 (by norm_num) (by norm_num) p.g
  obtain ⟨hb1, hb2⟩ := f32ToIntSat_range 0 255 (by norm_num) (by norm_num) p.b
  refine ⟨⟨hx1, hx2, hy1, hy2, hr1, hr2, hg1, hg2, hb1, hb2⟩,
    ⟨fun q hq hc => f32ToI16_sat_hi p.x q hq hc,
     fun q hq hc => f32ToI16_sat_lo p.x q hq hc,
     fun q hq hc => f32ToI16_sat_hi p.y q hq hc,
     fun q hq hc => f32ToI16_sat_lo p.y q hq hc⟩,
    ⟨fun q hq hc => f32ToU8_sat_hi p.r q hq hc,
     fun q hq hc => f32ToU8_sat_lo p.r q hq hc,
     fun q hq hc => f32ToU8_sat_hi p.g q hq hc,
     fun q hq hc => f32ToU8_sat_lo p.g q hq hc,
     fun q hq hc => f32ToU8_sat_hi p.b q hq hc,
     fun q hq hc => f32ToU8_sat_lo p.b q hq hc⟩,
    ⟨fun h => by simp only [PipelinePoint.into_simple_pt, h]; rfl,
     fun h => by simp only [PipelinePoint.into_simple_pt, h]; rfl,
     fun h => by simp only [PipelinePoint.into_simple_pt, h]; rfl,
     fun h => by simp only [PipelinePoint.into_simple_pt, h]; rfl⟩,
    ⟨fun h => by simp only [PipelinePoint.into_simple_pt, h]; rfl,
     fun h => by simp only [PipelinePoint.into_simple_pt, h]; rfl,
     fun h => by simp only [PipelinePoint.into_simple_pt, h]; rfl,
     fun h => by simp only [PipelinePoint.into_simple_pt, h]; rfl,
     fun h => by simp only [PipelinePoint.into_simple_pt, h]; rfl⟩⟩

/-- Witness for C8: at the concrete point (40000.0, −40000.0, 300.0, −5.0,
NaN) the narrowed fields are 32767, −32768, 255, 0 and 0. -/
theorem c8_narrowing_total_saturating_witness :
    satDemoPt.into_simple_pt.x = 32767 ∧
    satDemoPt.into_simple_pt.y = -32768 ∧
    satDemoPt.into_simple_pt.r = 255 ∧
    satDemoPt.into_simple_pt.g = 0 ∧
    satDemoPt.into_simple_pt.b = 0 :=
  ⟨(c8_narrowing_total_saturating satDemoPt).2.1.1 40000 rfl (by norm_num),
   (c8_narrowing_total_saturating satDemoPt).2.1.2.2.2 (-40000) rfl
     (by norm_num),
   (c8_narrowing_total_saturating satDemoPt).2.2.1.1 300 rfl (by norm_num),
   (c8_narrowing_total_saturating satDemoPt).2.2.1.2.2.2.1 (-5) rfl
     (by norm_num),
   (c8_narrowing_total_saturating satDemoPt).2.2.2.2.2.2.2.2 rfl⟩

/-- C9: widening commutes with every constructor — building a `SimplePoint`
with any of the seven constructors and widening it equals building the
same-named `PipelinePoint` constructor from the float-converted
arguments. -/
theorem c9_widening_commutes (x y r g b l : Int) (isOn : Bool) :
    (SimplePoint.xy_rgb x y r g b).into_pipeline_pt =
      PipelinePoint.xy_rgb (intToF32 x) (intToF32 y) (intToF32 r)
        (intToF32 g) (intToF32 b) ∧
    (SimplePoint.xy_blank x y).into_pipeline_pt =
      PipelinePoint.xy_blank (intToF32 x) (intToF32 y) ∧
    (SimplePoint.xy_luma x y l).into_pipeline_pt =
      PipelinePoint.xy_luma (intToF32 x) (intToF32 y) (intToF32 l) ∧
    (SimplePoint.xy_red x y l).into_pipeline_pt =
      PipelinePoint.xy_red (intToF32 x) (intToF32 y) (intToF32 l) ∧
    (SimplePoint.xy_green x y l).into_pipeline_pt =
      PipelinePoint.xy_green (intToF32 x) (intToF32 y) (intToF32 l) ∧
    (SimplePoint.xy_blue x y l).into_pipeline_pt =
      PipelinePoint.xy_blue (intToF32 x) (intToF32 y) (intToF32 l) ∧
    (SimplePoint.xy_binary x y isOn).into_pipeline_pt =
      PipelinePoint.xy_binary (intToF32 x) (intToF32 y) isOn := by
  cases isOn <;>
    exact ⟨rfl, rfl, rfl, rfl, rfl, rfl, rfl⟩

end PointRs
